import Mathlib

/-!
Verification of the RollerMate client's social-graph, feed, messaging and
notification logic against its design specification.

The definitions below are a shallow embedding of the TypeScript source:

* `src/unnamed/part_000` — user-profile screen: `fetchProfile`, `handleFollow`,
  `handleMessage`;
* `src/app/_layout.tsx` — tab layout (notification/unread aggregation:
  `fetchUnreadNotifications`, `fetchUnreadMessages`, `markNotificationsAsRead`,
  `getNotificationContent`), feed screen (`fetchPosts`, `handleLike`,
  `handleCreatePost`), profile screen (`fetchProfile`, `completionPercentage`,
  `isVerified`);
* `src/unnamed/part_001` — the supabase client wrapper.  It demonstrates the
  error convention used throughout the repository: a failed query or mutation
  RESOLVES with an `{ data, error }` object (see its connection test, which
  checks `error` explicitly); it does not reject the promise.  Call sites that
  want an exception write `if (error) throw error` themselves.

Backend (PostgREST) queries are modelled as pure functions of an explicit
database value, following the query the source builds; mutation/upload results
that the source receives from the backend are passed in as explicit arguments.
-/

namespace RollerMate

/-- Characters are stripped from both ends by JS `String.prototype.trim`;
modelled with `Char.isWhitespace` (space, tab, CR, LF), which covers the
standard whitespace characters. -/
def jsTrim (s : String) : String :=
  String.mk (((s.data.dropWhile Char.isWhitespace).reverse.dropWhile
    Char.isWhitespace).reverse)

/-- JS `Math.round (num / den)` for naturals with `den > 0`: round to nearest,
halves toward positive infinity, i.e. `⌊num / den + 1 / 2⌋`. -/
def jsRound (num den : Nat) : Nat :=
  (2 * num + den) / (2 * den)

/-- Result object a supabase mutation resolves with; the `error` field is
`some e` when the server rejected the mutation.  The promise resolves either
way (see `src/unnamed/part_001`), so control flow continues past the `await`
at every call site. -/
structure MutationResult where
  error : Option String
deriving Repr, DecidableEq

/-! Follow toggle (`handleFollow`, `src/unnamed/part_000` lines 149-178). -/

/-- The slice of the user-profile screen's `profile` view state that
`handleFollow` reads and writes; the remaining fields are copied by the
object spread and never change. -/
structure FollowViewState where
  followers_count : Int
  is_following : Bool
deriving Repr, DecidableEq

/-- `handleFollow` (`src/unnamed/part_000` lines 149-178): deletes the follow
edge when `is_following`, inserts it otherwise, then applies the optimistic
local update.  The result of the delete/insert is not destructured in the
source (`await supabase.from('follows').delete()...` with no binding), so the
update below runs whether or not `res.error` is set; only a rejected promise
(caught by the surrounding `try`) would skip it. -/
def handleFollow (profile : FollowViewState) (res : MutationResult) :
    FollowViewState :=
  let _ := res
  { followers_count :=
      if profile.is_following then profile.followers_count - 1
      else profile.followers_count + 1,
    is_following := !profile.is_following }

/-! Feed screen (`src/app/_layout.tsx` lines 593-737). -/

/-- A row of the `posts` table. -/
structure PostRow where
  id : String
  user_id : String
  content : String
  created_at : Int
deriving Repr, DecidableEq

/-- A row of the `likes` table: one like edge `(post_id, user_id)`. -/
structure LikeRow where
  post_id : String
  user_id : String
deriving Repr, DecidableEq

/-- A row of the `comments` table (only the post it belongs to matters here). -/
structure CommentRow where
  id : String
  post_id : String
deriving Repr, DecidableEq

/-- The tables the feed query reads. -/
structure FeedDb where
  posts : List PostRow
  likes : List LikeRow
  comments : List CommentRow
deriving Repr, DecidableEq

/-- A `count` aggregate row as PostgREST returns it: `[{ count: n }]`. -/
structure CountRow where
  count : Nat
deriving Repr, DecidableEq

/-- An `id`-only row, as returned by `select('id')`. -/
structure IdRow where
  id : String
deriving Repr, DecidableEq

/-- A post of the feed screen's `posts` view state (its `Post` interface),
after `fetchPosts` attached the derived fields. -/
structure FeedPost where
  id : String
  user_id : String
  content : String
  created_at : Int
  likes : Int
  comments_count : Nat
  liked_by_user : Bool
deriving Repr, DecidableEq

/-- Backend ordering requested by
`.order('created_at', { ascending: false })`: rows sorted by `created_at`
descending. -/
def orderByCreatedAtDesc (posts : List PostRow) : List PostRow :=
  List.insertionSort (fun a b => b.created_at ≤ a.created_at) posts

/-- One row of the feed query's response
(`select('*, user:profiles(...), likes(user_id), comments:comments(count)')`,
`src/app/_layout.tsx` lines 598-606): the post row joined with the `user_id`
of each of its like rows and with its comment-count aggregate. -/
structure JoinedPostRow where
  id : String
  user_id : String
  content : String
  created_at : Int
  like_user_ids : List String
  comments_count_rows : List CountRow
deriving Repr, DecidableEq

/-- The modelled response of the feed query of `fetchPosts`
(`src/app/_layout.tsx` lines 598-606). -/
def feedQuery (db : FeedDb) : List JoinedPostRow :=
  (orderByCreatedAtDesc db.posts).map (fun p =>
    { id := p.id, user_id := p.user_id, content := p.content,
      created_at := p.created_at,
      like_user_ids :=
        (db.likes.filter (fun l => l.post_id == p.id)).map LikeRow.user_id,
      comments_count_rows :=
        [⟨(db.comments.filter (fun c => c.post_id == p.id)).length⟩] })

/-- `fetchPosts` (`src/app/_layout.tsx` lines 593-621): maps each returned row
to the view state, computing `likes` as `post.likes?.length || 0`,
`comments_count` as `post.comments?.[0]?.count || 0` and `liked_by_user` as
`post.likes?.some(like => like.user_id === user.id) || false`. -/
def fetchPosts (db : FeedDb) (viewerId : String) : List FeedPost :=
  (feedQuery db).map (fun post =>
    { id := post.id, user_id := post.user_id, content := post.content,
      created_at := post.created_at,
      likes := (post.like_user_ids.length : Int),
      comments_count := ((post.comments_count_rows.head?.map CountRow.count).getD 0),
      liked_by_user := post.like_user_ids.any (fun uid => uid == viewerId) })

/-- `handleLike` (`src/app/_layout.tsx` lines 623-655): finds the post in the
local list, deletes the like edge when `liked_by_user`, inserts it otherwise,
then rewrites the list with the optimistic update.  As in `handleFollow`, the
mutation's result is never destructured, so the update runs whether or not
`res.error` is set. -/
def handleLike (posts : List FeedPost) (postId userId : String)
    (res : MutationResult) : List FeedPost :=
  let _ := userId
  let _ := res
  match posts.find? (fun p => p.id == postId) with
  | none => posts
  | some post =>
    posts.map (fun p =>
      if p.id == postId then
        { p with
          likes := if post.liked_by_user then p.likes - 1 else p.likes + 1,
          liked_by_user := !post.liked_by_user }
      else p)

/-- The part of the feed screen's composer state that `handleCreatePost`
reads and writes. -/
structure ComposerState where
  content : String
  selectedImage : Option String
  location : Option (Int × Int)
  isCreating : Bool
  isLoading : Bool
deriving Repr, DecidableEq

/-- Network calls `handleCreatePost` can issue, in order. -/
inductive NetworkCall
  | storageUpload
  | postInsert
deriving Repr, DecidableEq

/-- `handleCreatePost` (`src/app/_layout.tsx` lines 687-737).  The guard
`if (!content.trim() && !selectedImage) return;` exits before `setIsLoading`
and before any network call.  Otherwise: if an image is selected, upload it
(a failing upload throws, caught by the `catch`, and the insert never runs);
then insert the post row; on success the composer state is reset; `finally`
clears `isLoading` on every path.  Returns the list of issued network calls
together with the final composer state. -/
def handleCreatePost (st : ComposerState) (uploadRes : Except String String)
    (insertRes : Option String) : List NetworkCall × ComposerState :=
  if jsTrim st.content = "" ∧ st.selectedImage = none then
    ([], st)
  else
    let stLoading := { st with isLoading := true }
    match st.selectedImage with
    | some _ =>
      match uploadRes with
      | .error _ => ([.storageUpload], { stLoading with isLoading := false })
      | .ok _ =>
        match insertRes with
        | some _ =>
          ([.storageUpload, .postInsert], { stLoading with isLoading := false })
        | none =>
          ([.storageUpload, .postInsert],
            { content := "", selectedImage := none, location := none,
              isCreating := false, isLoading := false })
    | none =>
      match insertRes with
      | some _ => ([.postInsert], { stLoading with isLoading := false })
      | none =>
        ([.postInsert],
          { content := "", selectedImage := none, location := none,
            isCreating := false, isLoading := false })

/-! Profile aggregate reader of the user-profile screen
(`fetchProfile`, `src/unnamed/part_000` lines 59-120). -/

/-- The response row of the base profile lookup
(`select('id, full_name, avatar_url, bio, sports, created_at, posts:posts(count)')`). -/
structure BaseProfileRow where
  id : String
  full_name : String
  avatar_url : String
  bio : String
  sports : List String
  created_at : Int
  posts : List CountRow
deriving Repr, DecidableEq

/-- The merged `Profile` record the user-profile screen stores. -/
structure ProfileAggregate where
  id : String
  full_name : String
  avatar_url : String
  bio : String
  sports : List String
  created_at : Int
  followers_count : Nat
  following_count : Nat
  posts_count : Nat
  is_following : Bool
deriving Repr, DecidableEq

/-- `fetchProfile` of the user-profile screen (`src/unnamed/part_000` lines
59-120), as a function of the four query responses.  Each `if (error) throw`
is modelled by the `Except.error` branch: any error lands in the `catch`, and
`setProfile` is never called (`none`).  When all four succeed the merged
record is built with `followersData[0]?.count || 0`,
`followingData[0]?.count || 0`, `profileData.posts[0]?.count || 0` and
`is_following = isFollowingData.length > 0`. -/
def fetchProfileUser (profileRes : Except String BaseProfileRow)
    (followersRes : Except String (List CountRow))
    (followingRes : Except String (List CountRow))
    (isFollowingRes : Except String (List IdRow)) : Option ProfileAggregate :=
  match profileRes with
  | .error _ => none
  | .ok profileData =>
    match followersRes with
    | .error _ => none
    | .ok followersData =>
      match followingRes with
      | .error _ => none
      | .ok followingData =>
        match isFollowingRes with
        | .error _ => none
        | .ok isFollowingData =>
          some { id := profileData.id, full_name := profileData.full_name,
                 avatar_url := profileData.avatar_url, bio := profileData.bio,
                 sports := profileData.sports,
                 created_at := profileData.created_at,
                 followers_count :=
                   ((followersData.head?.map CountRow.count).getD 0),
                 following_count :=
                   ((followingData.head?.map CountRow.count).getD 0),
                 posts_count :=
                   ((profileData.posts.head?.map CountRow.count).getD 0),
                 is_following := decide (0 < isFollowingData.length) }

/-! Messaging bootstrap (`handleMessage`, `src/unnamed/part_000`
lines 180-227). -/

/-- A row of the `chat_participants` table. -/
structure ChatParticipantRow where
  chat_id : String
  user_id : String
deriving Repr, DecidableEq

/-- PostgREST `.single()`: the data is the row when the response holds exactly
one row; on zero or several rows the call reports an error and the data is
null.  The source reads only the data. -/
def singleRow {α : Type} (rows : List α) : Option α :=
  match rows with
  | [x] => some x
  | _ => none

/-- The chat ids of all chats a user participates in: first query of
`handleMessage` (`select('chat_id').eq('user_id', currentUserId)`). -/
def participantChatIds (rows : List ChatParticipantRow) (u : String) :
    List String :=
  (rows.filter (fun r => r.user_id == u)).map ChatParticipantRow.chat_id

/-- The rows the second query of `handleMessage` filters:
`select('chat_id').eq('user_id', profile.id).in('chat_id', chatIds)` — the
target user's participant rows lying in one of the current user's chats. -/
def sharedChatCandidates (rows : List ChatParticipantRow)
    (currentUserId targetId : String) : List ChatParticipantRow :=
  rows.filter (fun r =>
    r.user_id == targetId
      && (participantChatIds rows currentUserId).contains r.chat_id)

/-- Observable outcome of `handleMessage`: the chat navigated to and the rows
inserted. -/
structure MessageOutcome where
  navigatedTo : Option String
  insertedChats : List String
  insertedParticipants : List ChatParticipantRow
deriving Repr, DecidableEq

/-- `handleMessage` (`src/unnamed/part_000` lines 180-227): looks the shared
chat up with `.single()`; when it yields a row, navigates to its chat id.
Otherwise inserts a new chat row (`newChatRes` carries the id the backend
assigned, or the insert error, which is thrown and caught), inserts the two
participant rows in one batch, and navigates to the new chat id. -/
def handleMessage (rows : List ChatParticipantRow)
    (currentUserId targetId : String) (newChatRes : Except String String) :
    MessageOutcome :=
  match singleRow (sharedChatCandidates rows currentUserId targetId) with
  | some existingChat =>
    { navigatedTo := some existingChat.chat_id, insertedChats := [],
      insertedParticipants := [] }
  | none =>
    match newChatRes with
    | .error _ =>
      { navigatedTo := none, insertedChats := [], insertedParticipants := [] }
    | .ok newChatId =>
      { navigatedTo := some newChatId, insertedChats := [newChatId],
        insertedParticipants :=
          [⟨newChatId, currentUserId⟩, ⟨newChatId, targetId⟩] }

/-! Notification/unread aggregation (`src/app/_layout.tsx` lines 95-279). -/

/-- A row of the `notifications` table (the fields the counters read). -/
structure NotificationRow where
  id : String
  user_id : String
  read : Bool
deriving Repr, DecidableEq

/-- `fetchUnreadNotifications` (`src/app/_layout.tsx` lines 142-158): exact
count of the user's rows with `read = false`. -/
def fetchUnreadNotifications (db : List NotificationRow) (u : String) : Nat :=
  (db.filter (fun r => r.user_id == u && r.read == false)).length

/-- The bulk update of `markNotificationsAsRead`
(`update({ read: true }).eq('user_id', u).eq('read', false)`): every matching
row gets `read := true`, all other rows are untouched. -/
def updateReadTrue (db : List NotificationRow) (u : String) :
    List NotificationRow :=
  db.map (fun r =>
    if r.user_id == u && r.read == false then { r with read := true } else r)

/-- `markNotificationsAsRead` (`src/app/_layout.tsx` lines 212-228): runs the
bulk update, then resets the local unread counter to `0`.  Returns the updated
table and the new counter value. -/
def markNotificationsAsRead (db : List NotificationRow) (u : String) :
    List NotificationRow × Nat :=
  (updateReadTrue db u, 0)

/-- A row of the `messages` table (the fields the unread counter reads). -/
structure MessageRow where
  id : String
  chat_id : String
  user_id : String
  read_at : Option String
deriving Repr, DecidableEq

/-- The tables `fetchUnreadMessages` reads. -/
structure MsgDb where
  chat_participants : List ChatParticipantRow
  messages : List MessageRow
deriving Repr, DecidableEq

/-- `fetchUnreadMessages` (`src/app/_layout.tsx` lines 160-186): collects the
chat ids the user participates in, then counts the messages with
`.in('chat_id', chatIds).is('read_at', null).neq('user_id', user.id)`. -/
def fetchUnreadMessages (db : MsgDb) (u : String) : Nat :=
  (db.messages.filter (fun m =>
    (participantChatIds db.chat_participants u).contains m.chat_id
      && m.read_at == none && m.user_id != u)).length

/-- The fields of a notification that `getNotificationContent` reads: its
`type` (a string in the source's `switch`), the payload keys `data.post_id`
and `data.follower_id`, and the denormalized author's `user.full_name`. -/
structure NotifView where
  type : String
  post_id : String
  follower_id : String
  full_name : String
deriving Repr, DecidableEq

/-- Navigation performed by a notification's `onPress`. -/
inductive NavTarget
  | post (id : String)
  | profile (id : String)
  | noNav
deriving Repr, DecidableEq

/-- `getNotificationContent` (`src/app/_layout.tsx` lines 245-279): a `switch`
on `notification.type` with cases `'like'`, `'comment'`, `'follow'` and a
default arm returning the placeholder text with an `onPress` of `() => {}`. -/
def getNotificationContent (n : NotifView) : String × NavTarget :=
  if n.type = "like" then
    (n.full_name ++ " лайкнул ваш пост", NavTarget.post n.post_id)
  else if n.type = "comment" then
    (n.full_name ++ " прокомментировал ваш пост", NavTarget.post n.post_id)
  else if n.type = "follow" then
    (n.full_name ++ " подписался на вас", NavTarget.profile n.follower_id)
  else
    ("Новое уведомление", NavTarget.noNav)

/-! Profile completion (`src/app/_layout.tsx` lines 1206-1244). -/

/-- The eight entries of `PROFILE_FIELDS`. -/
inductive ProfileField
  | full_name
  | avatar_url
  | bio
  | city
  | experience_years
  | skates
  | sports
  | skating_style
deriving Repr, DecidableEq

/-- `PROFILE_FIELDS` (`src/app/_layout.tsx` lines 1206-1215). -/
def PROFILE_FIELDS : List ProfileField :=
  [.full_name, .avatar_url, .bio, .city, .experience_years, .skates, .sports,
   .skating_style]

/-- The profile-screen record restricted to the eight completion fields.
String fields are `null` or a string, `experience_years` is `null` or a
number, `sports` is `null` or an array. -/
structure ProfileRecord where
  full_name : Option String
  avatar_url : Option String
  bio : Option String
  city : Option String
  experience_years : Option Int
  skates : Option String
  sports : Option (List String)
  skating_style : Option String
deriving Repr, DecidableEq

/-- JS truthiness of a nullable string: `null` and `""` are falsy. -/
def strTruthy : Option String → Bool
  | none => false
  | some s => s != ""

/-- The completion predicate of `src/app/_layout.tsx` lines 1234-1237:
`value && (Array.isArray(value) ? value.length > 0 : true)` — JS truthiness,
with arrays additionally required non-empty (`0` and `""` are falsy, an array
is always truthy). -/
def fieldFilled (p : ProfileRecord) : ProfileField → Bool
  | .full_name => strTruthy p.full_name
  | .avatar_url => strTruthy p.avatar_url
  | .bio => strTruthy p.bio
  | .city => strTruthy p.city
  | .experience_years =>
    match p.experience_years with
    | none => false
    | some n => n != 0
  | .skates => strTruthy p.skates
  | .sports =>
    match p.sports with
    | none => false
    | some l => decide (0 < l.length)
  | .skating_style => strTruthy p.skating_style

/-- The number of completed fields
(`PROFILE_FIELDS.filter(...).length`). -/
def completedFieldCount (p : ProfileRecord) : Nat :=
  (PROFILE_FIELDS.filter (fieldFilled p)).length

/-- `completionPercentage` (`src/app/_layout.tsx` lines 1232-1239):
`Math.round((completedFields.length / PROFILE_FIELDS.length) * 100)`. -/
def completionPercentage (p : ProfileRecord) : Nat :=
  jsRound (100 * completedFieldCount p) PROFILE_FIELDS.length

/-- `isVerified` (`src/app/_layout.tsx` lines 1241-1244):
`completionPercentage >= 80` (for a present profile). -/
def isVerified (p : ProfileRecord) : Bool :=
  decide (80 ≤ completionPercentage p)

/-! Theorems -/

/-- Helper for C7: after the bulk update, no row of the user still matches the
unread filter. -/
theorem filter_unread_updateReadTrue (db : List NotificationRow) (u : String) :
    (updateReadTrue db u).filter (fun r => r.user_id == u && r.read == false)
      = [] := by
  induction db with
  | nil => rfl
  | cons r t ih =>
    unfold updateReadTrue at ih ⊢
    rw [List.map_cons]
    by_cases h : (r.user_id == u && r.read == false) = true
    · rw [if_pos h, List.filter_cons]
      have hfalse : ¬((({ id := r.id, user_id := r.user_id, read := true } :
          NotificationRow).user_id == u
          && ({ id := r.id, user_id := r.user_id, read := true } :
          NotificationRow).read == false) = true) := by simp
      rw [if_neg hfalse]
      exact ih
    · rw [if_neg h, List.filter_cons, if_neg h]
      exact ih

/-- C1: the spec requires that a failed delete/insert leaves the local
`is_following`/`followers_count` (resp. `liked_by_user`/`likes`) untouched,
but both handlers discard the mutation's `{ data, error }` result (the
supabase client resolves with an error instead of rejecting, as every other
call site's explicit `if (error) throw error` shows), so the optimistic update
is applied even when the server mutation returns an error.  Evaluation at a
failing input: with `is_following = false` and an errored insert,
`handleFollow` still flips the flag and increments the counter, and
`handleLike` still increments the like count and flips `liked_by_user`. -/
theorem optimistic_update_applied_despite_error :
    handleFollow ⟨5, false⟩ ⟨some "insert failed"⟩ = ⟨6, true⟩
    ∧ handleLike [⟨"p1", "u2", "hello", 10, 3, 0, false⟩] "p1" "u1"
        ⟨some "insert failed"⟩
      = [⟨"p1", "u2", "hello", 10, 4, 0, true⟩] :=
  ⟨rfl, rfl⟩

/-- C2: evaluation of the user-profile aggregate reader at the failing input:
all four queries succeed but the follower-count and following-count responses
carry no rows.  The reader then produces a merged record reporting
`followers_count = 0` (and `following_count = 0`) as if they were correct
counts, instead of propagating the missing data as a failure; the post-count
path (`posts = [{count: 3}]`) shows the non-defaulted merge for contrast. -/
theorem fetchProfileUser_zero_on_missing_count_data :
    fetchProfileUser
      (Except.ok ⟨"u2", "Ivan", "ava", "bio", ["skate"], 100, [⟨3⟩]⟩)
      (Except.ok []) (Except.ok []) (Except.ok [])
      = some ⟨"u2", "Ivan", "ava", "bio", ["skate"], 100, 0, 0, 3, false⟩ :=
  rfl

/-- C3: with both backend calls succeeding and no intervening external change,
toggling the follow relationship twice returns both the `is_following` flag
and the optimistic `followers_count` to their original values. -/
theorem handleFollow_toggle_twice_id (p : FollowViewState)
    (r1 r2 : MutationResult) (_h1 : r1.error = none) (_h2 : r2.error = none) :
    handleFollow (handleFollow p r1) r2 = p := by
  cases p with
  | mk c f => cases f <;> simp [handleFollow]

/-- Witness for C3 at a concrete state. -/
theorem handleFollow_toggle_twice_id_witness :
    handleFollow (handleFollow ⟨7, true⟩ ⟨none⟩) ⟨none⟩
      = (⟨7, true⟩ : FollowViewState) :=
  handleFollow_toggle_twice_id ⟨7, true⟩ ⟨none⟩ ⟨none⟩ rfl rfl

/-- C4 counterexample: in a state where chats "c1" and "c2" each contain both
users (the duplicate-pair state the spec's own race analysis admits), the
`.single()` lookup yields no data, so the flow does NOT navigate to an
existing chat and does not create nothing: it inserts yet another chat "c3"
and navigates there — refuting the claim that whenever a chat with both
participants exists the bootstrap navigates to it and creates nothing. -/
theorem handleMessage_duplicate_pair_creates_again :
    (⟨"c1", "A"⟩ : ChatParticipantRow)
        ∈ ([⟨"c1", "A"⟩, ⟨"c1", "B"⟩, ⟨"c2", "A"⟩, ⟨"c2", "B"⟩] :
            List ChatParticipantRow)
    ∧ (⟨"c1", "B"⟩ : ChatParticipantRow)
        ∈ ([⟨"c1", "A"⟩, ⟨"c1", "B"⟩, ⟨"c2", "A"⟩, ⟨"c2", "B"⟩] :
            List ChatParticipantRow)
    ∧ handleMessage [⟨"c1", "A"⟩, ⟨"c1", "B"⟩, ⟨"c2", "A"⟩, ⟨"c2", "B"⟩]
        "A" "B" (Except.ok "c3")
      = ⟨some "c3", ["c3"], [⟨"c3", "A"⟩, ⟨"c3", "B"⟩]⟩ := by
  refine ⟨by decide, by decide, by decide⟩

/-- C4 (amended): when the shared-chat lookup yields exactly one participant
row, the bootstrap navigates to that chat and inserts nothing; when it yields
no row — equivalently, by the last conjunct, when no chat id carries a
participant row of each of the two users — it inserts exactly one chat row
and exactly two participant rows (current user and target) referencing it and
navigates to the new chat id. -/
theorem handleMessage_find_or_create (rows : List ChatParticipantRow)
    (a b newId : String) (res : Except String String) :
    (∀ cp : ChatParticipantRow, sharedChatCandidates rows a b = [cp] →
        handleMessage rows a b res = ⟨some cp.chat_id, [], []⟩)
    ∧ (sharedChatCandidates rows a b = [] →
        handleMessage rows a b (Except.ok newId)
          = ⟨some newId, [newId], [⟨newId, a⟩, ⟨newId, b⟩]⟩)
    ∧ (sharedChatCandidates rows a b = []
        ↔ ¬ ∃ c : String,
            (∃ r ∈ rows, r.user_id = a ∧ r.chat_id = c)
            ∧ (∃ r ∈ rows, r.user_id = b ∧ r.chat_id = c)) := by
  refine ⟨?_, ?_, ?_⟩
  · intro cp h
    unfold handleMessage
    rw [h]
    rfl
  · intro h
    unfold handleMessage
    rw [h]
    rfl
  · unfold sharedChatCandidates participantChatIds
    rw [List.filter_eq_nil_iff]
    constructor
    · rintro h ⟨c, ⟨ra, hra, hua, hca⟩, ⟨rb, hrb, hub, hcb⟩⟩
      refine h rb hrb ?_
      rw [Bool.and_eq_true]
      refine ⟨beq_iff_eq.mpr hub, ?_⟩
      exact List.elem_iff.mpr (List.mem_map.mpr
        ⟨ra, List.mem_filter.mpr ⟨hra, beq_iff_eq.mpr hua⟩, by rw [hca, hcb]⟩)
    · intro h r hr hpred
      rw [Bool.and_eq_true] at hpred
      obtain ⟨hub, hcont⟩ := hpred
      have hmem : r.chat_id ∈ (rows.filter
          (fun rr => rr.user_id == a)).map ChatParticipantRow.chat_id :=
        List.elem_iff.mp hcont
      obtain ⟨ra, hra, hca⟩ := List.mem_map.mp hmem
      obtain ⟨hramem, hua⟩ := List.mem_filter.mp hra
      exact h ⟨r.chat_id, ⟨ra, hramem, beq_iff_eq.mp hua, hca⟩,
        ⟨r, hr, beq_iff_eq.mp hub, rfl⟩⟩

/-- Witness for C4 (amended), FOUND branch: one shared chat, navigation to it,
nothing inserted. -/
theorem handleMessage_find_or_create_witness :
    handleMessage [⟨"c1", "A"⟩, ⟨"c1", "B"⟩] "A" "B" (Except.ok "c9")
      = ⟨some "c1", [], []⟩ :=
  (handleMessage_find_or_create [⟨"c1", "A"⟩, ⟨"c1", "B"⟩] "A" "B" "c9"
    (Except.ok "c9")).1 ⟨"c1", "B"⟩ (by decide)

/-- C5: with empty (or whitespace-only) content and no image selected, post
creation returns before any network call: no storage upload, no post insert,
and the composer state is returned unchanged. -/
theorem handleCreatePost_rejects_empty (st : ComposerState)
    (uploadRes : Except String String) (insertRes : Option String)
    (hContent : jsTrim st.content = "") (hImage : st.selectedImage = none) :
    handleCreatePost st uploadRes insertRes = ([], st) := by
  unfold handleCreatePost
  rw [if_pos ⟨hContent, hImage⟩]

/-- Witness for C5 at a whitespace-only composer state. -/
theorem handleCreatePost_rejects_empty_witness :
    handleCreatePost ⟨" \n\t ", none, none, true, false⟩ (Except.ok "url") none
      = ([], ⟨" \n\t ", none, none, true, false⟩) :=
  handleCreatePost_rejects_empty ⟨" \n\t ", none, none, true, false⟩
    (Except.ok "url") none (by decide) rfl

/-- C6: for a fixed set of posts with pairwise-distinct creation timestamps,
the feed reader returns them in strictly descending `created_at` order, and
each returned post carries its like count, its comment count, and a
`liked_by_user` flag that is true exactly when a like edge
`(post_id, viewer_id)` exists. -/
theorem fetchPosts_ordered_and_annotated (db : FeedDb) (viewerId : String)
    (hdist : db.posts.Pairwise (fun a b => a.created_at ≠ b.created_at)) :
    ((fetchPosts db viewerId).map FeedPost.created_at).Pairwise (· > ·)
    ∧ ∀ fp ∈ fetchPosts db viewerId,
        fp.likes = ((db.likes.filter (fun l => l.post_id == fp.id)).length : Int)
        ∧ fp.comments_count
            = (db.comments.filter (fun c => c.post_id == fp.id)).length
        ∧ (fp.liked_by_user = true
            ↔ ∃ l ∈ db.likes, l.post_id = fp.id ∧ l.user_id = viewerId) := by
  constructor
  · have hsorted : (orderByCreatedAtDesc db.posts).Pairwise
        (fun a b : PostRow => b.created_at ≤ a.created_at) := by
      haveI : IsTotal PostRow (fun a b => b.created_at ≤ a.created_at) :=
        ⟨fun x y => le_total _ _⟩
      haveI : IsTrans PostRow (fun a b => b.created_at ≤ a.created_at) :=
        ⟨fun x y z hxy hyz => le_trans hyz hxy⟩
      exact List.sorted_insertionSort _ _
    have hperm : (orderByCreatedAtDesc db.posts).Perm db.posts :=
      List.perm_insertionSort _ _
    have hne : (orderByCreatedAtDesc db.posts).Pairwise
        (fun a b : PostRow => a.created_at ≠ b.created_at) :=
      (List.Perm.pairwise_iff (fun h => h.symm) hperm).mpr hdist
    have hgt : (orderByCreatedAtDesc db.posts).Pairwise
        (fun a b : PostRow => a.created_at > b.created_at) := by
      refine (hsorted.and hne).imp ?_
      rintro x y ⟨hle, hnee⟩
      exact lt_of_le_of_ne hle (fun hh => hnee hh.symm)
    unfold fetchPosts feedQuery
    rw [List.map_map, List.map_map, List.pairwise_map]
    exact hgt
  · intro fp hfp
    unfold fetchPosts feedQuery at hfp
    rw [List.map_map] at hfp
    obtain ⟨p, hp, rfl⟩ := List.mem_map.mp hfp
    refine ⟨by simp, rfl, ?_⟩
    simp only [Function.comp_apply, List.any_eq_true, List.mem_map,
      List.mem_filter, beq_iff_eq]
    constructor
    · rintro ⟨uid, ⟨l, ⟨hl, hlp⟩, hlu⟩, huid⟩
      exact ⟨l, hl, hlp, by rw [hlu]; exact huid⟩
    · rintro ⟨l, hl, hlp, hlu⟩
      exact ⟨l.user_id, ⟨l, ⟨hl, hlp⟩, rfl⟩, hlu⟩

/-- Witness for C6 at a two-post database. -/
theorem fetchPosts_ordered_and_annotated_witness :
    ((fetchPosts ⟨[⟨"p1", "u1", "hi", 5⟩, ⟨"p2", "u2", "yo", 9⟩],
        [⟨"p1", "u1"⟩], []⟩ "u1").map FeedPost.created_at).Pairwise (· > ·) :=
  (fetchPosts_ordered_and_annotated
    ⟨[⟨"p1", "u1", "hi", 5⟩, ⟨"p2", "u2", "yo", 9⟩], [⟨"p1", "u1"⟩], []⟩
    "u1" (by decide)).1

/-- C7: marking notifications as read sets the local unread counter to exactly
0, flips the `read` flag of every previously-unread row of the current user to
true, and a re-run of the unread-count fetch on the updated table (no new
rows) yields 0. -/
theorem markNotificationsAsRead_spec (db : List NotificationRow) (u : String) :
    (markNotificationsAsRead db u).2 = 0
    ∧ fetchUnreadNotifications (markNotificationsAsRead db u).1 u = 0
    ∧ ∀ i : Nat, ∀ r : NotificationRow, db[i]? = some r → r.user_id = u →
        r.read = false →
        (markNotificationsAsRead db u).1[i]? = some { r with read := true } := by
  refine ⟨rfl, ?_, ?_⟩
  · unfold fetchUnreadNotifications markNotificationsAsRead
    rw [filter_unread_updateReadTrue]
    rfl
  · intro i r hget hu hr
    unfold markNotificationsAsRead updateReadTrue
    rw [List.getElem?_map, hget]
    simp [hu, hr]

/-- Witness for C7 at a one-row table. -/
theorem markNotificationsAsRead_spec_witness :
    (markNotificationsAsRead [⟨"n1", "u1", false⟩] "u1").2 = 0
    ∧ (markNotificationsAsRead [⟨"n1", "u1", false⟩] "u1").1[0]?
        = some ⟨"n1", "u1", true⟩ :=
  ⟨(markNotificationsAsRead_spec [⟨"n1", "u1", false⟩] "u1").1,
   (markNotificationsAsRead_spec [⟨"n1", "u1", false⟩] "u1").2.2 0
     ⟨"n1", "u1", false⟩ rfl rfl rfl⟩

/-- C8 counterexample: `comment_like` (and `reply`) are enumerated notification
types, yet the renderer maps them to the generic placeholder with the no-op
navigation: two `comment_like` notifications differing only in the actor's
display name render identically, so the display string is not parameterized by
the actor's name and no type-derived navigation target is produced. -/
theorem getNotificationContent_enumerated_type_unparameterized :
    (getNotificationContent ⟨"comment_like", "p1", "f1", "Анна"⟩).1
      = (getNotificationContent ⟨"comment_like", "p1", "f1", "Борис"⟩).1
    ∧ getNotificationContent ⟨"comment_like", "p1", "f1", "Анна"⟩
        = ("Новое уведомление", NavTarget.noNav)
    ∧ getNotificationContent ⟨"reply", "p1", "f1", "Анна"⟩
        = ("Новое уведомление", NavTarget.noNav)
    ∧ ("Анна" : String) ≠ "Борис" := by
  refine ⟨rfl, rfl, rfl, by decide⟩

/-- C8 (amended): the renderer maps `like` and `comment` to a display string
parameterized by the actor's name with navigation to `data.post_id`, and
`follow` to a name-parameterized string with navigation to
`data.follower_id`; every other type — including the enumerated
`comment_like` and `reply` — yields the generic placeholder text with the
no-op navigation action. -/
theorem getNotificationContent_by_type (n : NotifView) :
    (n.type = "like" →
      getNotificationContent n
        = (n.full_name ++ " лайкнул ваш пост", NavTarget.post n.post_id))
    ∧ (n.type = "comment" →
      getNotificationContent n
        = (n.full_name ++ " прокомментировал ваш пост",
           NavTarget.post n.post_id))
    ∧ (n.type = "follow" →
      getNotificationContent n
        = (n.full_name ++ " подписался на вас",
           NavTarget.profile n.follower_id))
    ∧ (n.type ≠ "like" → n.type ≠ "comment" → n.type ≠ "follow" →
        getNotificationContent n = ("Новое уведомление", NavTarget.noNav)) := by
  refine ⟨fun h => ?_, fun h => ?_, fun h => ?_, fun h1 h2 h3 => ?_⟩ <;>
    simp [getNotificationContent, *]

/-- Witness for C8 (amended) at a concrete `like` notification. -/
theorem getNotificationContent_by_type_witness :
    getNotificationContent ⟨"like", "p9", "f9", "Ира"⟩
      = ("Ира лайкнул ваш пост", NavTarget.post "p9") :=
  (getNotificationContent_by_type ⟨"like", "p9", "f9", "Ира"⟩).1 rfl

/-- C9: the unread-message badge counts exactly the messages lying in a chat
the current user participates in, with a null `read_at`, authored by a user
other than the current user; in particular, if every message is authored by
the current user the count is 0. -/
theorem fetchUnreadMessages_spec (db : MsgDb) (u : String) :
    fetchUnreadMessages db u
      = (db.messages.filter (fun m =>
          decide ((∃ cp ∈ db.chat_participants,
              cp.user_id = u ∧ cp.chat_id = m.chat_id)
            ∧ m.read_at = none ∧ m.user_id ≠ u))).length
    ∧ ((∀ m ∈ db.messages, m.user_id = u) → fetchUnreadMessages db u = 0) := by
  constructor
  · unfold fetchUnreadMessages
    congr 1
    apply List.filter_congr
    intro m hm
    have hc : ∀ (l : List String) (x : String),
        l.contains x = decide (x ∈ l) := fun l x => List.elem_eq_mem x l
    rw [hc]
    have hbool : ∀ x y : Bool, (x = true ↔ y = true) → x = y := by decide
    apply hbool
    simp only [Bool.and_eq_true, decide_eq_true_eq, participantChatIds,
      List.mem_map, List.mem_filter, beq_iff_eq, bne_iff_ne]
    constructor
    · rintro ⟨⟨⟨cp, ⟨hcp, hcpu⟩, hcpc⟩, hread⟩, hne⟩
      exact ⟨⟨cp, hcp, hcpu, hcpc⟩, hread, hne⟩
    · rintro ⟨⟨cp, hcp, hcpu, hcpc⟩, hread, hne⟩
      exact ⟨⟨⟨cp, ⟨hcp, hcpu⟩, hcpc⟩, hread⟩, hne⟩
  · intro hall
    unfold fetchUnreadMessages
    rw [List.length_eq_zero, List.filter_eq_nil_iff]
    intro m hm
    simp [hall m hm]

/-- Witness for C9: a single unread message authored by the current user in
their own chat is not counted. -/
theorem fetchUnreadMessages_spec_witness :
    fetchUnreadMessages ⟨[⟨"c1", "u1"⟩], [⟨"m1", "c1", "u1", none⟩]⟩ "u1" = 0 :=
  (fetchUnreadMessages_spec ⟨[⟨"c1", "u1"⟩], [⟨"m1", "c1", "u1", none⟩]⟩
    "u1").2 (by decide)

/-- C10: the completion percentage equals `Math.round(100 * k / 8)` for `k`
the number of filled fields among the eight fixed profile fields, always lies
within `[0, 100]`, and the verified badge holds iff the percentage is at
least 80, which happens iff at least 7 of the 8 fields are filled. -/
theorem completionPercentage_spec (p : ProfileRecord) :
    completionPercentage p = jsRound (100 * completedFieldCount p) 8
    ∧ completionPercentage p ≤ 100
    ∧ (isVerified p = true ↔ 80 ≤ completionPercentage p)
    ∧ (isVerified p = true ↔ 7 ≤ completedFieldCount p) := by
  have hk : completedFieldCount p ≤ 8 :=
    List.length_filter_le (fieldFilled p) PROFILE_FIELDS
  have hval : completionPercentage p
      = (2 * (100 * completedFieldCount p) + 8) / 16 := rfl
  refine ⟨rfl, ?_, ?_, ?_⟩
  · rw [hval]; omega
  · simp [isVerified]
  · simp only [isVerified, decide_eq_true_eq]
    rw [hval]
    omega

end RollerMate
